import Mathlib

/-!
# Verification of the ACH fraud-detection rule engine (`src/risk_rules.py`)

A shallow embedding of the scoring engine from `risk_rules.py`.

The pandas `DataFrame` of transactions (one row per transaction, as produced
by `generate_synthetic_data.py`) is modelled as a `List Transaction` holding
the fields the rules read.  Dollar amounts are rationals (the rules only
compare them against integer thresholds, so `Rat` captures the float
comparisons exactly on all inputs the rules see).  The optional columns
`return_code` and `days_to_return` (NaN / `None` in pandas) become `Option`
fields; pandas comparisons against NaN yield `False`, which is what the
`Option`-aware predicates below compute.

Each rule returns the matching rows tagged with its `rule_name`
(`df[mask].assign(rule_name=...)` in the source), modelled as
`List (Transaction × String)`.
-/

/-- One row of the transaction store, with the columns `risk_rules.py` reads.
Columns the engine never touches (`timestamp_utc`, `direction`, `ach_type`,
`ip_country`, the fraud-pattern labels) are omitted from the record but kept
in the schema-level model `storeColumns` below. -/
structure Transaction where
  transaction_id : String
  user_id : String
  device_id : String
  funding_speed : String
  account_age_days : Int
  amount_usd : Rat
  returned : Bool
  return_code : Option String
  days_to_return : Option Int
  deriving DecidableEq, Repr

/-- The `mask` of `rule_high_instant_ach_for_new_users`:
`(df["funding_speed"] == "instant") & (df["account_age_days"] < 30) &
(df["amount_usd"] > 500)`, row by row. -/
def high_instant_mask (t : Transaction) : Bool :=
  (t.funding_speed == "instant") &&
  decide (t.account_age_days < 30) &&
  decide (t.amount_usd > 500)

/-- `rule_high_instant_ach_for_new_users(df)`:
`df[mask].assign(rule_name="high_instant_ach_for_new_users")`. -/
def rule_high_instant_ach_for_new_users (df : List Transaction) :
    List (Transaction × String) :=
  (df.filter high_instant_mask).map
    (fun t => (t, "high_instant_ach_for_new_users"))

/-- The high-risk ACH return codes hardcoded in `rule_rapid_high_risk_returns`. -/
def high_risk_return_codes : List String := ["R01", "R10", "R29"]

/-- The `mask` of `rule_rapid_high_risk_returns`:
`(df["returned"] == True) & (df["days_to_return"].notna()) &
(df["days_to_return"] <= 5) & (df["return_code"].isin(["R01","R10","R29"]))`.
A NaN `days_to_return` fails `notna()` (and `NaN <= 5` is `False` in pandas);
a NaN `return_code` fails `isin`; both are the `none` branches here. -/
def rapid_returns_mask (t : Transaction) : Bool :=
  (t.returned == true) &&
  t.days_to_return.isSome &&
  (match t.days_to_return with
   | some d => decide (d ≤ 5)
   | none => false) &&
  (match t.return_code with
   | some c => high_risk_return_codes.contains c
   | none => false)

/-- `rule_rapid_high_risk_returns(df)`:
`df[mask].assign(rule_name="rapid_high_risk_returns")`. -/
def rule_rapid_high_risk_returns (df : List Transaction) :
    List (Transaction × String) :=
  (df.filter rapid_returns_mask).map
    (fun t => (t, "rapid_high_risk_returns"))

/-- `df.groupby("device_id")["user_id"].nunique()` for one device: the number
of distinct `user_id`s among the rows with that `device_id`. -/
def distinctUsersOfDevice (df : List Transaction) (d : String) : Nat :=
  ((df.filter (fun t => t.device_id == d)).map Transaction.user_id).dedup.length

/-- The `device_user_counts` table of `rule_device_shared_by_many_users`:
one `(device_id, unique_users)` row per distinct device in the store. -/
def deviceUserCounts (df : List Transaction) : List (String × Nat) :=
  (df.map Transaction.device_id).dedup.map
    (fun d => (d, distinctUsersOfDevice df d))

/-- The `suspicious_devices` series of `rule_device_shared_by_many_users`:
the `device_id`s whose `unique_users` count is `>= min_users`. -/
def suspicious_devices (df : List Transaction) (min_users : Nat) : List String :=
  ((deviceUserCounts df).filter (fun p => decide (p.2 ≥ min_users))).map Prod.fst

/-- The `mask` of `rule_device_shared_by_many_users`:
`df["device_id"].isin(suspicious_devices)`, row by row. -/
def device_shared_mask (df : List Transaction) (min_users : Nat)
    (t : Transaction) : Bool :=
  (suspicious_devices df min_users).contains t.device_id

/-- `rule_device_shared_by_many_users(df, min_users=5)`:
`df[mask].assign(rule_name="device_shared_by_many_users")`.  The Python
default `min_users=5` is supplied at the call site in the registry `rules`
below. -/
def rule_device_shared_by_many_users (df : List Transaction) (min_users : Nat) :
    List (Transaction × String) :=
  (df.filter (device_shared_mask df min_users)).map
    (fun t => (t, "device_shared_by_many_users"))

/-- The type of a rule: the full store in, the tagged flagged rows out. -/
def RuleFn : Type := List Transaction → List (Transaction × String)

/-- The hardcoded rule registry inside `score_transactions`
(`rules = [rule_high_instant_ach_for_new_users, rule_rapid_high_risk_returns,
rule_device_shared_by_many_users]`, the last one called with its default
`min_users=5`). -/
def rules : List RuleFn :=
  [rule_high_instant_ach_for_new_users,
   rule_rapid_high_risk_returns,
   fun df => rule_device_shared_by_many_users df 5]

/-- The rows of `alerts_df` that carry a given `transaction_id` (one group of
`alerts_df.groupby("transaction_id")`). -/
def transactionHits (alerts_df : List (Transaction × String)) (tid : String) :
    List (Transaction × String) :=
  alerts_df.filter (fun a => a.1.transaction_id == tid)

/-- `alerts_df.groupby("transaction_id")["rule_name"].count()`: one
`(transaction_id, risk_score)` row per transaction_id occurring in
`alerts_df`; `rule_name` is never null in `alerts_df`, so `count()` is the
group size. -/
def scoresTable (alerts_df : List (Transaction × String)) : List (String × Nat) :=
  ((alerts_df.map (fun a => a.1.transaction_id)).dedup).map
    (fun tid => (tid, (transactionHits alerts_df tid).length))

/-- The left merge `df.merge(scores, on="transaction_id", how="left")`
followed by `.fillna(0)` for one row: look the row's `transaction_id` up in
the scores table, defaulting to `0` when absent.  (`scoresTable` lists each
transaction_id once, so the left merge never duplicates a row of `df`.) -/
def mergeScore (scores : List (String × Nat)) (tid : String) : Nat :=
  match scores.find? (fun p => p.1 == tid) with
  | some p => p.2
  | none => 0

/-- `score_transactions` with the rule registry as a parameter: runs each
rule over the store, concatenates the per-rule alert tables
(`pd.concat(alerts_list)`), counts hits per transaction_id, and left-merges
the counts back onto the store as `risk_score` with `fillna(0)`. -/
def score_transactions_with (rs : List RuleFn) (df : List Transaction) :
    List (Transaction × Nat) × List (Transaction × String) :=
  let alerts_df := (rs.map (fun rule => rule df)).flatten
  let scores := scoresTable alerts_df
  let df_scored := df.map (fun t => (t, mergeScore scores t.transaction_id))
  (df_scored, alerts_df)

/-- `score_transactions(df)` from `risk_rules.py`: the pipeline above run
with the hardcoded registry.  First component: `df_scored` (each input row
with its `risk_score`); second: `alerts_df` (every rule hit). -/
def score_transactions (df : List Transaction) :
    List (Transaction × Nat) × List (Transaction × String) :=
  score_transactions_with rules df

/-!
## Schema-level model (for the missing-column behaviour)

The typed `Transaction` record cannot express a store that lacks a column,
so the schema-level behaviour of the pipeline is modelled separately: a
store's schema is its list of column names, and every pandas column access
`df[c]` either succeeds or raises `KeyError(c)` — an exception whose payload
is the column name alone.  `risk_rules.py` installs no exception handler, so
the first failing access aborts `score_transactions`.
-/

/-- The columns of the transaction store written by
`generate_synthetic_data.py` (the well-formed schema). -/
def storeColumns : List String :=
  ["transaction_id", "user_id", "timestamp_utc", "direction", "amount_usd",
   "ach_type", "funding_speed", "device_id", "ip_country", "return_code",
   "returned", "days_to_return", "fraud_pattern_type", "is_fraud_pattern",
   "account_age_days"]

/-- One pandas column access `df[c]`: `KeyError(c)` when column `c` is
absent from the schema.  The error value is the column name only. -/
def columnAccess (schema : List String) (c : String) : Except String Unit :=
  if schema.contains c then .ok () else .error c

/-- A sequence of column accesses, aborting at the first missing column,
exactly as the accesses inside a mask expression evaluate left to right. -/
def accessAll (schema : List String) (cols : List String) : Except String Unit :=
  match cols with
  | [] => .ok ()
  | c :: rest => do
      columnAccess schema c
      accessAll schema rest

/-- Columns read by `rule_high_instant_ach_for_new_users`, in mask order. -/
def high_instant_columns : List String :=
  ["funding_speed", "account_age_days", "amount_usd"]

/-- Columns read by `rule_rapid_high_risk_returns`, in mask order
(`days_to_return` is accessed twice). -/
def rapid_returns_columns : List String :=
  ["returned", "days_to_return", "days_to_return", "return_code"]

/-- Columns read by `rule_device_shared_by_many_users`, in access order
(`groupby("device_id")["user_id"]`, then `df["device_id"].isin(...)`). -/
def device_shared_columns : List String :=
  ["device_id", "user_id", "device_id"]

/-- Every column a built-in rule or the aggregation step reads, in the order
`score_transactions` first accesses them (`transaction_id` is first touched
by the `groupby` on `alerts_df` after all three rules have run). -/
def requiredColumnsInOrder : List String :=
  high_instant_columns ++ rapid_returns_columns ++ device_shared_columns ++
    ["transaction_id"]

/-- The stable names of the three built-in rules. -/
def ruleNames : List String :=
  ["high_instant_ach_for_new_users", "rapid_high_risk_returns",
   "device_shared_by_many_users"]

/-- Schema-level `score_transactions`: performs the column accesses of the
three rules in registry order, then the `transaction_id` accesses of the
aggregation, and only then returns the value-level result.  The first
missing column aborts the run with its `KeyError`. -/
def score_transactions_schema (schema : List String) (df : List Transaction) :
    Except String (List (Transaction × Nat) × List (Transaction × String)) := do
  accessAll schema high_instant_columns
  accessAll schema rapid_returns_columns
  accessAll schema device_shared_columns
  accessAll schema ["transaction_id"]
  pure (score_transactions df)

/-!
## Concrete stores used in the examples and witnesses
-/

/-- A transaction matched by `high_instant_ach_for_new_users` (instant
funding, 5-day-old account, $600) and by `rapid_high_risk_returns`
(returned in 3 days with code R01), but alone on its device. -/
def txA : Transaction :=
  { transaction_id := "t1", user_id := "u1", device_id := "d1",
    funding_speed := "instant", account_age_days := 5, amount_usd := 600,
    returned := true, return_code := some "R01", days_to_return := some 3 }

/-- A transaction no rule matches. -/
def txB : Transaction :=
  { transaction_id := "t2", user_id := "u2", device_id := "d2",
    funding_speed := "standard", account_age_days := 200, amount_usd := 40,
    returned := false, return_code := none, days_to_return := none }

/-- Same as `txA` but for $400: below the `amount_usd > 500` threshold. -/
def txA400 : Transaction :=
  { transaction_id := "t3", user_id := "u1", device_id := "d1",
    funding_speed := "instant", account_age_days := 5, amount_usd := 400,
    returned := false, return_code := none, days_to_return := none }

/-- Returned with high-risk code R01 but only after 10 days. -/
def txSlowReturn : Transaction :=
  { transaction_id := "t4", user_id := "u3", device_id := "d3",
    funding_speed := "standard", account_age_days := 90, amount_usd := 100,
    returned := true, return_code := some "R01", days_to_return := some 10 }

/-- A small store with distinct transaction_ids. -/
def exStore : List Transaction := [txA, txB]

/-- A helper for building the device-sharing example rows: only
`transaction_id`, `user_id` and `device_id` vary, every other column is
inert for the device rule. -/
def mkDeviceTxn (tid uid did : String) : Transaction :=
  { transaction_id := tid, user_id := uid, device_id := did,
    funding_speed := "standard", account_age_days := 100, amount_usd := 50,
    returned := false, return_code := none, days_to_return := none }

/-- The device-sharing example store of the spec: 6 transactions from 5
distinct users on `device_9`, and 2 transactions from 2 distinct users on
`device_3`. -/
def exDeviceStore : List Transaction :=
  [mkDeviceTxn "x1" "u1" "device_9", mkDeviceTxn "x2" "u2" "device_9",
   mkDeviceTxn "x3" "u3" "device_9", mkDeviceTxn "x4" "u4" "device_9",
   mkDeviceTxn "x5" "u5" "device_9", mkDeviceTxn "x6" "u1" "device_9",
   mkDeviceTxn "x7" "v1" "device_3", mkDeviceTxn "x8" "v2" "device_3"]

/-- The registry with its first two rules swapped, a concrete permutation
of `rules`. -/
def rulesSwapped : List RuleFn :=
  [rule_rapid_high_risk_returns,
   rule_high_instant_ach_for_new_users,
   fun df => rule_device_shared_by_many_users df 5]

/-!
## Helper lemmas
-/

theorem score_transactions_with_fst (rs : List RuleFn) (df : List Transaction) :
    (score_transactions_with rs df).1 =
      df.map (fun t =>
        (t, mergeScore (scoresTable ((rs.map (fun rule => rule df)).flatten))
              t.transaction_id)) := rfl

theorem score_transactions_with_snd (rs : List RuleFn) (df : List Transaction) :
    (score_transactions_with rs df).2 =
      (rs.map (fun rule => rule df)).flatten := rfl

/-- `alerts_df` for the hardcoded registry is the concatenation of the three
rules' hit tables, in registry order. -/
theorem alerts_decomposition (df : List Transaction) :
    (score_transactions df).2 =
      rule_high_instant_ach_for_new_users df ++
        (rule_rapid_high_risk_returns df ++
          (rule_device_shared_by_many_users df 5 ++ [])) := rfl

theorem find?_beq_self {l : List String} {tid : String} (h : tid ∈ l) :
    l.find? (fun t => t == tid) = some tid := by
  induction l with
  | nil => cases h
  | cons a l ih =>
    by_cases ha : a = tid
    · subst ha
      exact List.find?_cons_of_pos _ (by simp)
    · rw [List.find?_cons_of_neg _ (by simpa using ha)]
      rcases List.mem_cons.mp h with h1 | h1
      · exact absurd h1.symm ha
      · exact ih h1

/-- The `groupby`-count followed by the left merge with `fillna(0)` computes,
for every transaction_id, precisely the number of alert rows that carry it. -/
theorem mergeScore_scoresTable (A : List (Transaction × String)) (tid : String) :
    mergeScore (scoresTable A) tid = (transactionHits A tid).length := by
  unfold mergeScore scoresTable
  rw [List.find?_map]
  have hc : ((fun p : String × Nat => p.1 == tid) ∘
      fun t => (t, (transactionHits A t).length)) = fun t => t == tid := rfl
  rw [hc]
  by_cases h : tid ∈ (A.map (fun a => a.1.transaction_id)).dedup
  · rw [find?_beq_self h]
    rfl
  · have hfind : ((A.map (fun a => a.1.transaction_id)).dedup).find?
        (fun t => t == tid) = none := by
      rw [List.find?_eq_none]
      intro x hx hbx
      rw [beq_iff_eq] at hbx
      subst hbx
      exact h hx
    rw [hfind]
    have hnil : transactionHits A tid = [] := by
      rw [transactionHits, List.filter_eq_nil_iff]
      intro a ha hba
      rw [beq_iff_eq] at hba
      exact h (List.mem_dedup.mpr (List.mem_map.mpr ⟨a, ha, hba⟩))
    rw [hnil]
    rfl

theorem transactionHits_append (A B : List (Transaction × String)) (tid : String) :
    transactionHits (A ++ B) tid = transactionHits A tid ++ transactionHits B tid :=
  List.filter_append A B

/-- Restricting a tagged rule output to one transaction_id is the tagged
restriction of the matching rows. -/
theorem transactionHits_tagged (p : Transaction → Bool) (n : String)
    (df : List Transaction) (tid : String) :
    transactionHits ((df.filter p).map (fun t => (t, n))) tid
      = ((df.filter p).filter (fun t => t.transaction_id == tid)).map
          (fun t => (t, n)) := by
  rw [transactionHits, List.filter_map]
  rfl

/-- In a store whose transaction_ids are pairwise distinct, at most one row
carries any given transaction_id. -/
theorem length_filter_tid_le_one {l : List Transaction}
    (h : (l.map Transaction.transaction_id).Nodup) (tid : String) :
    (l.filter (fun t => t.transaction_id == tid)).length ≤ 1 := by
  induction l with
  | nil => simp
  | cons a l ih =>
    rw [List.map_cons, List.nodup_cons] at h
    by_cases ha : a.transaction_id = tid
    · rw [List.filter_cons_of_pos (by simpa using ha)]
      have hnil : l.filter (fun t => t.transaction_id == tid) = [] := by
        rw [List.filter_eq_nil_iff]
        intro x hx hbx
        rw [beq_iff_eq] at hbx
        exact h.1 (List.mem_map.mpr ⟨x, hx, by rw [hbx, ha]⟩)
      rw [hnil]
      simp
    · rw [List.filter_cons_of_neg (by simpa using ha)]
      exact ih h.2

/-- Over a store with distinct transaction_ids, one rule's hit table holds,
for any transaction_id, either no row or exactly one row, tagged with the
rule's name. -/
theorem ruleHits_cases (p : Transaction → Bool) (n : String)
    (df : List Transaction) (tid : String)
    (h : (df.map Transaction.transaction_id).Nodup) :
    transactionHits ((df.filter p).map (fun t => (t, n))) tid = [] ∨
      ∃ t, transactionHits ((df.filter p).map (fun t => (t, n))) tid = [(t, n)] := by
  rw [transactionHits_tagged]
  have hsub : ((df.filter p).map Transaction.transaction_id).Nodup :=
    List.Nodup.sublist
      (List.Sublist.map Transaction.transaction_id (List.filter_sublist df)) h
  have hlen := length_filter_tid_le_one hsub tid
  cases hl : (df.filter p).filter (fun t => t.transaction_id == tid) with
  | nil =>
    left
    rfl
  | cons t rest =>
    cases rest with
    | nil =>
      right
      exact ⟨t, rfl⟩
    | cons u rest2 =>
      rw [hl] at hlen
      simp at hlen

theorem ruleHits_length_le_one (p : Transaction → Bool) (n : String)
    (df : List Transaction) (tid : String)
    (h : (df.map Transaction.transaction_id).Nodup) :
    (transactionHits ((df.filter p).map (fun t => (t, n))) tid).length ≤ 1 := by
  rw [transactionHits_tagged, List.length_map]
  exact length_filter_tid_le_one
    (List.Nodup.sublist
      (List.Sublist.map Transaction.transaction_id (List.filter_sublist df)) h) tid

/-- Membership in a tagged rule output, reduced to membership in the store
plus the rule's mask. -/
theorem mem_tagged_rule {p : Transaction → Bool} {n : String}
    {df : List Transaction} {T : Transaction} :
    (T, n) ∈ (df.filter p).map (fun t => (t, n)) ↔ (T ∈ df ∧ p T = true) := by
  simp only [List.mem_map, List.mem_filter, Prod.mk.injEq, and_true]
  constructor
  · rintro ⟨t, ⟨ht, hp⟩, rfl⟩
    exact ⟨ht, hp⟩
  · rintro ⟨ht, hp⟩
    exact ⟨T, ⟨ht, hp⟩, rfl⟩

theorem high_instant_mask_iff (t : Transaction) :
    high_instant_mask t = true ↔
      (t.funding_speed = "instant" ∧ t.account_age_days < 30 ∧
        t.amount_usd > 500) := by
  unfold high_instant_mask
  simp [and_assoc]

theorem rapid_returns_mask_iff (t : Transaction) :
    rapid_returns_mask t = true ↔
      (t.returned = true ∧ (∃ d, t.days_to_return = some d ∧ d ≤ 5) ∧
        (∃ c, t.return_code = some c ∧ c ∈ high_risk_return_codes)) := by
  unfold rapid_returns_mask
  cases hd : t.days_to_return with
  | none => simp [hd]
  | some d =>
    cases hc : t.return_code with
    | none => simp [hd, hc]
    | some c => simp [hd, hc, and_assoc]

theorem mem_suspicious_devices (df : List Transaction) (min_users : Nat)
    (d : String) :
    d ∈ suspicious_devices df min_users ↔
      (d ∈ df.map Transaction.device_id ∧
        min_users ≤ distinctUsersOfDevice df d) := by
  unfold suspicious_devices deviceUserCounts
  constructor
  · intro hm
    obtain ⟨p, hp, hpd⟩ := List.mem_map.mp hm
    obtain ⟨hp1, hp2⟩ := List.mem_filter.mp hp
    obtain ⟨d0, hd0, hd0eq⟩ := List.mem_map.mp hp1
    subst hd0eq
    obtain rfl : d0 = d := hpd
    exact ⟨List.mem_dedup.mp hd0, by simpa using hp2⟩
  · rintro ⟨hd, hcnt⟩
    refine List.mem_map.mpr ⟨(d, distinctUsersOfDevice df d), ?_, rfl⟩
    refine List.mem_filter.mpr ⟨?_, by simpa using hcnt⟩
    exact List.mem_map.mpr ⟨d, List.mem_dedup.mpr hd, rfl⟩

theorem device_shared_mask_iff (df : List Transaction) (min_users : Nat)
    (t : Transaction) :
    device_shared_mask df min_users t = true ↔
      (t.device_id ∈ df.map Transaction.device_id ∧
        min_users ≤ distinctUsersOfDevice df t.device_id) := by
  unfold device_shared_mask
  rw [List.elem_iff]
  exact mem_suspicious_devices df min_users t.device_id

/-!
## The claims
-/

/-- **C3**: `rule_high_instant_ach_for_new_users` flags a transaction of the
store exactly when `funding_speed = "instant"`, `account_age_days < 30` and
`amount_usd > 500`; in particular the spec's instant/5-day/$600 example is
flagged and its $400 variant is not. -/
theorem high_instant_rule_characterization :
    (∀ (df : List Transaction) (T : Transaction),
        (T, "high_instant_ach_for_new_users") ∈
            rule_high_instant_ach_for_new_users df ↔
          (T ∈ df ∧ T.funding_speed = "instant" ∧ T.account_age_days < 30 ∧
            T.amount_usd > 500)) ∧
    (txA, "high_instant_ach_for_new_users") ∈
        rule_high_instant_ach_for_new_users [txA] ∧
    rule_high_instant_ach_for_new_users [txA400] = [] := by
  refine ⟨?_, by decide, by decide⟩
  intro df T
  rw [rule_high_instant_ach_for_new_users, mem_tagged_rule,
    high_instant_mask_iff]

/-- **C5**: `rule_rapid_high_risk_returns` flags a transaction of the store
exactly when `returned` is true, `days_to_return` is present and `≤ 5`, and
`return_code` is present and in the high-risk set; a transaction whose
optional return fields are absent is (totally) evaluated to "not flagged";
the 3-day/R01 example is flagged, the 10-day one is not. -/
theorem rapid_returns_rule_characterization :
    (∀ (df : List Transaction) (T : Transaction),
        (T, "rapid_high_risk_returns") ∈ rule_rapid_high_risk_returns df ↔
          (T ∈ df ∧ T.returned = true ∧
            (∃ d, T.days_to_return = some d ∧ d ≤ 5) ∧
            (∃ c, T.return_code = some c ∧ c ∈ high_risk_return_codes))) ∧
    (txA, "rapid_high_risk_returns") ∈ rule_rapid_high_risk_returns [txA] ∧
    rule_rapid_high_risk_returns [txSlowReturn] = [] ∧
    rule_rapid_high_risk_returns [txB] = [] := by
  refine ⟨?_, by decide, by decide, by decide⟩
  intro df T
  rw [rule_rapid_high_risk_returns, mem_tagged_rule, rapid_returns_mask_iff]

/-- **C4**: `rule_device_shared_by_many_users(min_users)` flags a transaction
of the store exactly when the number of distinct `user_id`s on its
`device_id` across the whole store is at least `min_users`; on the spec's
example store every `device_9` transaction is flagged (5 distinct users) and
no `device_3` transaction is (2 distinct users, threshold 5). -/
theorem device_shared_rule_characterization :
    (∀ (df : List Transaction) (min_users : Nat) (T : Transaction),
        (T, "device_shared_by_many_users") ∈
            rule_device_shared_by_many_users df min_users ↔
          (T ∈ df ∧ min_users ≤ distinctUsersOfDevice df T.device_id)) ∧
    (∀ T ∈ exDeviceStore, T.device_id = "device_9" →
        (T, "device_shared_by_many_users") ∈
          rule_device_shared_by_many_users exDeviceStore 5) ∧
    (∀ T ∈ exDeviceStore, T.device_id = "device_3" →
        ¬ (T, "device_shared_by_many_users") ∈
            rule_device_shared_by_many_users exDeviceStore 5) := by
  refine ⟨?_, by decide, by decide⟩
  intro df min_users T
  rw [rule_device_shared_by_many_users, mem_tagged_rule,
    device_shared_mask_iff]
  constructor
  · rintro ⟨h1, _, h2⟩
    exact ⟨h1, h2⟩
  · rintro ⟨h1, h2⟩
    exact ⟨h1, List.mem_map.mpr ⟨T, h1, rfl⟩, h2⟩

/-- **C9**: the empty transaction store is valid input: the engine returns
empty scored and alert outputs (also at the schema level, with the full
well-formed schema) rather than erroring. -/
theorem empty_store_scores_to_empty :
    score_transactions [] = ([], []) ∧
      score_transactions_schema storeColumns [] = .ok ([], []) :=
  ⟨rfl, rfl⟩

/-- The alert rows for one transaction_id, split by originating rule. -/
theorem transactionHits_split (df : List Transaction) (tid : String) :
    transactionHits (score_transactions df).2 tid =
      transactionHits ((df.filter high_instant_mask).map
          (fun t => (t, "high_instant_ach_for_new_users"))) tid ++
        (transactionHits ((df.filter rapid_returns_mask).map
            (fun t => (t, "rapid_high_risk_returns"))) tid ++
          (transactionHits ((df.filter (device_shared_mask df 5)).map
              (fun t => (t, "device_shared_by_many_users"))) tid ++ [])) := by
  rw [alerts_decomposition, transactionHits_append, transactionHits_append,
    transactionHits_append]
  rfl

/-- **C2**: the scored output lists exactly the input's transaction_ids, in
order and without duplication, and a transaction with no row in `alerts_df`
is scored `0` (left-join with `fillna(0)`), not dropped. -/
theorem scored_output_preserves_ids_and_defaults_to_zero
    (df : List Transaction)
    (hnd : (df.map Transaction.transaction_id).Nodup) :
    ((score_transactions df).1.map (fun pr => pr.1.transaction_id) =
        df.map Transaction.transaction_id) ∧
    ((score_transactions df).1.map (fun pr => pr.1.transaction_id)).Nodup ∧
    (∀ pr ∈ (score_transactions df).1,
      (∀ a ∈ (score_transactions df).2,
          a.1.transaction_id ≠ pr.1.transaction_id) →
        pr.2 = 0) := by
  have hmap : (score_transactions df).1.map (fun pr => pr.1.transaction_id) =
      df.map Transaction.transaction_id := by
    rw [score_transactions, score_transactions_with_fst, List.map_map]
    rfl
  refine ⟨hmap, hmap ▸ hnd, ?_⟩
  intro pr hpr hnone
  rw [score_transactions, score_transactions_with_fst] at hpr
  obtain ⟨t, ht, rfl⟩ := List.mem_map.mp hpr
  show mergeScore _ _ = 0
  rw [mergeScore_scoresTable]
  have hnil : transactionHits ((rules.map (fun rule => rule df)).flatten)
      t.transaction_id = [] := by
    rw [transactionHits, List.filter_eq_nil_iff]
    intro a ha hba
    rw [beq_iff_eq] at hba
    exact hnone a ha hba
  rw [hnil]
  rfl

theorem scored_output_preserves_ids_witness :
    (exStore.map Transaction.transaction_id).Nodup ∧
    (score_transactions exStore).1.map (fun pr => pr.1.transaction_id) =
      exStore.map Transaction.transaction_id ∧
    ((txB, 0) : Transaction × Nat).2 = 0 :=
  ⟨by decide,
   (scored_output_preserves_ids_and_defaults_to_zero exStore (by decide)).1,
   (scored_output_preserves_ids_and_defaults_to_zero exStore (by decide)).2.2
     (txB, 0) (by decide) (by decide)⟩

/-- **C1**: under distinct transaction_ids the `risk_score` the engine
assigns to each transaction equals the number of distinct rule_names paired
with its transaction_id in `alerts_df` (each rule fires at most once per
transaction and rule names are pairwise distinct, so the plain `groupby`
count coincides with the distinct count). -/
theorem risk_score_eq_distinct_rule_name_count (df : List Transaction)
    (hnd : (df.map Transaction.transaction_id).Nodup) :
    ∀ pr ∈ (score_transactions df).1,
      pr.2 = ((transactionHits (score_transactions df).2
          pr.1.transaction_id).map Prod.snd).dedup.length := by
  intro pr hpr
  rw [score_transactions, score_transactions_with_fst] at hpr
  obtain ⟨t, ht, rfl⟩ := List.mem_map.mp hpr
  show mergeScore _ _ = _
  rw [mergeScore_scoresTable]
  have hnodup : ((transactionHits (score_transactions df).2
      t.transaction_id).map Prod.snd).Nodup := by
    rw [transactionHits_split]
    rcases ruleHits_cases high_instant_mask "high_instant_ach_for_new_users"
        df t.transaction_id hnd with h1 | ⟨t1, h1⟩ <;>
      rcases ruleHits_cases rapid_returns_mask "rapid_high_risk_returns"
          df t.transaction_id hnd with h2 | ⟨t2, h2⟩ <;>
        rcases ruleHits_cases (device_shared_mask df 5)
            "device_shared_by_many_users" df t.transaction_id hnd with
          h3 | ⟨t3, h3⟩ <;>
          simp [h1, h2, h3]
  rw [List.dedup_eq_self.mpr hnodup, List.length_map]
  rfl

theorem risk_score_eq_distinct_rule_name_count_witness :
    (([txA].map Transaction.transaction_id).Nodup) ∧
    ((txA, 2) : Transaction × Nat) ∈ (score_transactions [txA]).1 ∧
    (2 : Nat) = ((transactionHits (score_transactions [txA]).2
        txA.transaction_id).map Prod.snd).dedup.length :=
  ⟨by decide, by decide,
   risk_score_eq_distinct_rule_name_count [txA] (by decide) (txA, 2)
     (by decide)⟩

/-- **C10**: with distinct transaction_ids every `risk_score` lies between
`0` and `3`, the size of the hardcoded registry (each of the three rules
contributes at most one hit per transaction). -/
theorem risk_score_bounded_by_rule_count (df : List Transaction)
    (hnd : (df.map Transaction.transaction_id).Nodup) :
    rules.length = 3 ∧
      ∀ pr ∈ (score_transactions df).1, pr.2 ≤ 3 := by
  refine ⟨rfl, ?_⟩
  intro pr hpr
  rw [score_transactions, score_transactions_with_fst] at hpr
  obtain ⟨t, ht, rfl⟩ := List.mem_map.mp hpr
  show mergeScore _ _ ≤ 3
  rw [mergeScore_scoresTable]
  have hs := transactionHits_split df t.transaction_id
  have l1 := ruleHits_length_le_one high_instant_mask
    "high_instant_ach_for_new_users" df t.transaction_id hnd
  have l2 := ruleHits_length_le_one rapid_returns_mask
    "rapid_high_risk_returns" df t.transaction_id hnd
  have l3 := ruleHits_length_le_one (device_shared_mask df 5)
    "device_shared_by_many_users" df t.transaction_id hnd
  calc (transactionHits (score_transactions df).2 t.transaction_id).length
      = _ := by rw [hs]
    _ ≤ 3 := by
        simp only [List.length_append, List.length_nil]
        omega

theorem risk_score_bounded_witness :
    ((exStore.map Transaction.transaction_id).Nodup) ∧
    rules.length = 3 ∧
    ((txA, 2) : Transaction × Nat).2 ≤ 3 :=
  ⟨by decide,
   (risk_score_bounded_by_rule_count exStore (by decide)).1,
   (risk_score_bounded_by_rule_count exStore (by decide)).2 (txA, 2)
     (by decide)⟩

/-- **C7**: `alerts_df` is the flat concatenation of the rules' hit tables,
so its cardinality is the total rule-hit count summed across the registry;
and with distinct transaction_ids no rule contributes two alert rows with
the same transaction_id. -/
theorem alerts_cardinality_and_per_rule_uniqueness (df : List Transaction)
    (hnd : (df.map Transaction.transaction_id).Nodup) :
    ((score_transactions df).2.length =
        (rules.map (fun rule => (rule df).length)).sum) ∧
    (∀ rule ∈ rules, ∀ tid : String,
      ((rule df).filter (fun a => a.1.transaction_id == tid)).length ≤ 1) := by
  constructor
  · rw [score_transactions, score_transactions_with_snd, List.length_flatten,
      List.map_map]
    rfl
  · intro rule hr tid
    simp only [rules, List.mem_cons, List.not_mem_nil, or_false] at hr
    rcases hr with rfl | rfl | rfl
    · exact ruleHits_length_le_one high_instant_mask
        "high_instant_ach_for_new_users" df tid hnd
    · exact ruleHits_length_le_one rapid_returns_mask
        "rapid_high_risk_returns" df tid hnd
    · exact ruleHits_length_le_one (device_shared_mask df 5)
        "device_shared_by_many_users" df tid hnd

theorem alerts_cardinality_witness :
    ((exStore.map Transaction.transaction_id).Nodup) ∧
    (score_transactions exStore).2.length =
      (rules.map (fun rule => (rule exStore).length)).sum ∧
    ((rule_high_instant_ach_for_new_users exStore).filter
        (fun a => a.1.transaction_id == "t1")).length ≤ 1 :=
  ⟨by decide,
   (alerts_cardinality_and_per_rule_uniqueness exStore (by decide)).1,
   (alerts_cardinality_and_per_rule_uniqueness exStore (by decide)).2
     rule_high_instant_ach_for_new_users (by simp [rules]) "t1"⟩

/-- **C6**: evaluating the registry in any permuted order leaves the scored
table unchanged (every transaction gets the same `risk_score`) and leaves
`alerts_df` a permutation of the original — the same multiset, hence the
same set of `(transaction_id, rule_name)` pairs — with only presentation
order free to differ. -/
theorem score_invariant_under_rule_permutation (rs : List RuleFn)
    (h : rs.Perm rules) (df : List Transaction) :
    (score_transactions_with rs df).1 = (score_transactions df).1 ∧
    ((score_transactions_with rs df).2.map
        (fun a => (a.1.transaction_id, a.2))).toFinset
      = ((score_transactions df).2.map
          (fun a => (a.1.transaction_id, a.2))).toFinset ∧
    ((score_transactions_with rs df).2).Perm ((score_transactions df).2) := by
  have halerts : ((rs.map (fun rule => rule df)).flatten).Perm
      ((rules.map (fun rule => rule df)).flatten) :=
    (List.Perm.map (fun rule => rule df) h).flatten
  refine ⟨?_, ?_, halerts⟩
  · rw [score_transactions, score_transactions_with_fst,
      score_transactions_with_fst]
    have hsc : ∀ tid : String,
        mergeScore (scoresTable ((rs.map (fun rule => rule df)).flatten)) tid
          = mergeScore
              (scoresTable ((rules.map (fun rule => rule df)).flatten)) tid := by
      intro tid
      rw [mergeScore_scoresTable, mergeScore_scoresTable]
      exact (halerts.filter _).length_eq
    simp only [hsc]
  · apply Finset.ext
    intro pr
    simp only [List.mem_toFinset]
    exact (List.Perm.map _ halerts).mem_iff

theorem score_invariant_witness :
    (score_transactions_with rulesSwapped exStore).1 =
      (score_transactions exStore).1 ∧
    ((score_transactions_with rulesSwapped exStore).2.map
        (fun a => (a.1.transaction_id, a.2))).toFinset
      = ((score_transactions exStore).2.map
          (fun a => (a.1.transaction_id, a.2))).toFinset ∧
    ((score_transactions_with rulesSwapped exStore).2).Perm
      ((score_transactions exStore).2) :=
  score_invariant_under_rule_permutation rulesSwapped
    (by unfold rulesSwapped rules; exact List.Perm.swap _ _ _) exStore

/-!
## C8: behaviour on a store missing a required column
-/

theorem find?_append {α : Type} (p : α → Bool) (l₁ l₂ : List α) :
    (l₁ ++ l₂).find? p =
      match l₁.find? p with
      | some a => some a
      | none => l₂.find? p := by
  induction l₁ with
  | nil => rfl
  | cons a l ih =>
    by_cases ha : p a = true
    · rw [List.cons_append, List.find?_cons_of_pos _ ha,
        List.find?_cons_of_pos _ ha]
    · rw [List.cons_append, List.find?_cons_of_neg _ ha,
        List.find?_cons_of_neg _ ha, ih]

/-- Running a column-access sequence before a continuation either aborts at
the first missing column or proceeds with the continuation untouched. -/
theorem run_after_accessAll {α : Type} (schema cols : List String)
    (k : Unit → Except String α) :
    (accessAll schema cols >>= k) =
      match cols.find? (fun x => !schema.contains x) with
      | some c => .error c
      | none => k () := by
  induction cols with
  | nil => rfl
  | cons d rest ih =>
    show ((columnAccess schema d >>= fun _ => accessAll schema rest) >>= k) = _
    by_cases hd : schema.contains d = true
    · rw [List.find?_cons_of_neg _ (by rw [hd]; decide)]
      have hca : columnAccess schema d = .ok () := by
        unfold columnAccess
        rw [if_pos hd]
      rw [hca]
      exact ih
    · rw [List.find?_cons_of_pos _
        (by simp only [Bool.not_eq_true] at hd; rw [hd]; decide)]
      have hca : columnAccess schema d = .error d := by
        unfold columnAccess
        rw [if_neg hd]
      rw [hca]
      rfl

/-- `score_transactions_schema` either raises the `KeyError` of the first
required column absent from the schema, or returns the value-level result. -/
theorem score_schema_eq (schema : List String) (df : List Transaction) :
    score_transactions_schema schema df =
      match requiredColumnsInOrder.find? (fun x => !schema.contains x) with
      | some c => .error c
      | none => .ok (score_transactions df) := by
  unfold score_transactions_schema
  rw [run_after_accessAll]
  unfold requiredColumnsInOrder
  rw [find?_append, find?_append, find?_append]
  cases hf1 : high_instant_columns.find? (fun x => !schema.contains x) with
  | some c => rfl
  | none =>
    rw [run_after_accessAll]
    cases hf2 : rapid_returns_columns.find? (fun x => !schema.contains x) with
    | some c => rfl
    | none =>
      rw [run_after_accessAll]
      cases hf3 : device_shared_columns.find? (fun x => !schema.contains x) with
      | some c => rfl
      | none =>
        rw [run_after_accessAll]
        cases hf4 : (["transaction_id"] : List String).find?
            (fun x => !schema.contains x) with
        | some c => rfl
        | none => rfl

/-- **C8, counterexample**: on a store whose schema lacks `funding_speed`
the engine raises `KeyError("funding_speed")` — the error names the missing
field but the name of the rule that needs it
(`high_instant_ach_for_new_users`) occurs nowhere in it, so the claim that
the error names both the field and the rule fails. -/
theorem missing_column_error_omits_rule_name :
    score_transactions_schema (storeColumns.erase "funding_speed") [] =
        .error "funding_speed" ∧
      ¬ ("high_instant_ach_for_new_users".data <:+:
          ("funding_speed" : String).data) := by
  constructor
  · rfl
  · decide

/-- **C8, amended**: a store missing a required column makes
`score_transactions` fail fast with a `KeyError` naming the first such
column accessed; the error does not silently coerce or skip the rule, but
it names only the missing field — none of the three rule names occurs in
it. -/
theorem missing_column_fails_fast_named_field (schema : List String)
    (df : List Transaction) (c : String)
    (h : requiredColumnsInOrder.find? (fun x => !schema.contains x) = some c) :
    score_transactions_schema schema df = .error c ∧
      c ∈ requiredColumnsInOrder ∧ schema.contains c = false ∧
      ¬ ("high_instant_ach_for_new_users".data <:+: c.data) ∧
      ¬ ("rapid_high_risk_returns".data <:+: c.data) ∧
      ¬ ("device_shared_by_many_users".data <:+: c.data) := by
  have hmem : c ∈ requiredColumnsInOrder := List.mem_of_find?_eq_some h
  have hmiss : schema.contains c = false := by
    have := List.find?_some h
    simpa using this
  refine ⟨?_, hmem, hmiss, ?_, ?_, ?_⟩
  · rw [score_schema_eq, h]
  · exact (by decide :
      ∀ x ∈ requiredColumnsInOrder,
        ¬ ("high_instant_ach_for_new_users".data <:+: x.data)) c hmem
  · exact (by decide :
      ∀ x ∈ requiredColumnsInOrder,
        ¬ ("rapid_high_risk_returns".data <:+: x.data)) c hmem
  · exact (by decide :
      ∀ x ∈ requiredColumnsInOrder,
        ¬ ("device_shared_by_many_users".data <:+: x.data)) c hmem

theorem missing_column_fails_fast_witness :
    requiredColumnsInOrder.find?
        (fun x => !((storeColumns.erase "funding_speed").contains x)) =
      some "funding_speed" ∧
    score_transactions_schema (storeColumns.erase "funding_speed") ([]) =
      .error "funding_speed" :=
  ⟨by decide,
   (missing_column_fails_fast_named_field (storeColumns.erase "funding_speed")
     [] "funding_speed" (by decide)).1⟩
